import Mathlib

/-!
Verification of the battery listener (gps/android/utils/battery_listener.cpp).

The development shallowly embeds the listener: the raw battery status enum,
the single-slot status store written by push updates, the debounce worker
loop (with its 3 second NOT_CHARGING grace window), the bounded-retry
service acquisition, death notification handling, teardown, and the
process-level facade entry points.
-/

/-- Raw battery status, from health HAL V1_0::BatteryStatus
(values used by the listener). -/
inductive BatteryStatus
  | UNKNOWN
  | CHARGING
  | DISCHARGING
  | NOT_CHARGING
  | FULL
deriving DecidableEq, Repr

/-- statusToBool (battery_listener.cpp lines 85-87):
charging iff status is CHARGING or FULL. -/
def statusToBool (s : BatteryStatus) : Bool :=
  (s = BatteryStatus.CHARGING) || (s = BatteryStatus.FULL)

/-- Android status_t values used by the listener (NO_ERROR = OK = 0). -/
inductive StatusT
  | NO_ERROR
  | NO_INIT
  | INVALID_OPERATION
deriving DecidableEq, Repr

/-- State of a BatteryListenerImpl object. mHealth is the service handle
(none = null sp), mStatus the single raw status slot, mDone the stop flag,
mThread whether the worker thread object exists, registeredCb and
linkedToDeath whether the push/death registrations are in place. -/
structure BatteryListenerImpl where
  mHealth : Option Nat
  mStatus : BatteryStatus
  mDone : Bool
  mThread : Bool
  registeredCb : Bool
  linkedToDeath : Bool
deriving DecidableEq, Repr

/-- A default-constructed listener before init runs: no handle, no thread,
nothing registered. (In C++ mStatus is uninitialized until init sets it;
we model the unread slot as UNKNOWN.) -/
def emptyListener : BatteryListenerImpl :=
  ⟨none, BatteryStatus.UNKNOWN, false, false, false, false⟩

/-- BatteryListenerImpl::isCharging (lines 71-74): reads statusToBool of the
mStatus slot under the lock. -/
def BatteryListenerImpl.isCharging (st : BatteryListenerImpl) : Bool :=
  statusToBool st.mStatus

/-- BatteryListenerImpl::healthInfoChanged (lines 215-224): a push update
writes the new raw status into the mStatus slot (and notifies the worker)
only when it differs from the current slot value. -/
def BatteryListenerImpl.healthInfoChanged (st : BatteryListenerImpl)
    (s : BatteryStatus) : BatteryListenerImpl :=
  if s = st.mStatus then st else { st with mStatus := s }

/-- GET_HEALTH_SVC_RETRY_CNT (line 58). -/
def GET_HEALTH_SVC_RETRY_CNT : Nat := 5

/-- GET_HEALTH_SVC_WAIT_TIME_MS (line 59). -/
def GET_HEALTH_SVC_WAIT_TIME_MS : Nat := 500

/-- Result of the acquisition do-while loop (lines 95-100): the handle (or
none), the final value of the tries counter, the number of getService
calls made, and the number of 500 ms sleeps performed. -/
structure AcquireResult where
  mHealth : Option Nat
  tries : Nat
  calls : Nat
  sleeps : Nat
deriving DecidableEq, Repr

/-- The do-while acquisition loop. env i is the result of the getService
call made when the tries counter holds i. remaining counts how many more
iterations the condition (tries < GET_HEALTH_SVC_RETRY_CNT) allows after
the current one; on failure the loop sleeps 500 ms and increments tries. -/
def acquireAux (env : Nat → Option Nat) : Nat → Nat → AcquireResult
  | tries, 0 =>
    match env tries with
    | some h => ⟨some h, tries, 1, 0⟩
    | none => ⟨none, tries + 1, 1, 1⟩
  | tries, r + 1 =>
    match env tries with
    | some h => ⟨some h, tries, 1, 0⟩
    | none =>
      let rest := acquireAux env (tries + 1) r
      ⟨rest.mHealth, rest.tries, rest.calls + 1, rest.sleeps + 1⟩

/-- The full acquisition loop as run by init: tries starts at 0 and the
condition tries < 5 allows at most 4 further iterations after the first. -/
def acquireService (env : Nat → Option Nat) : AcquireResult :=
  acquireAux env 0 (GET_HEALTH_SVC_RETRY_CNT - 1)

/-- Outcome of BatteryListenerImpl::init: the returned status_t, the
resulting object state, and the acquisition call/sleep counts. -/
structure InitOutcome where
  ret : StatusT
  st : BatteryListenerImpl
  calls : Nat
  sleeps : Nat
deriving DecidableEq, Repr

/-- BatteryListenerImpl::init (lines 90-171). Returns INVALID_OPERATION if
a handle is already held; runs the acquisition loop; on total failure
returns NO_INIT before touching mStatus, starting the worker thread or
registering anything; on success seeds mStatus from getChargeStatus
(UNKNOWN when the read fails), clears mDone, starts the worker thread,
registers the push callback and links to death, and returns NO_ERROR. -/
def BatteryListenerImpl.init (st : BatteryListenerImpl)
    (env : Nat → Option Nat) (chargeRead : Option BatteryStatus) : InitOutcome :=
  match st.mHealth with
  | some _ => ⟨StatusT.INVALID_OPERATION, st, 0, 0⟩
  | none =>
    let a := acquireService env
    match a.mHealth with
    | none => ⟨StatusT.NO_INIT, st, a.calls, a.sleeps⟩
    | some h =>
      let s0 := match chargeRead with
        | some s => s
        | none => BatteryStatus.UNKNOWN
      ⟨StatusT.NO_ERROR,
       { st with mHealth := some h, mStatus := s0, mDone := false,
                 mThread := true, registeredCb := true, linkedToDeath := true },
       a.calls, a.sleeps⟩

/-- Outcome of the destructor: either a fully torn down state, or a null
dereference naming the member dereferenced while absent. -/
inductive TeardownOutcome
  | ok (st : BatteryListenerImpl)
  | nullDeref (member : String)
deriving DecidableEq, Repr

/-- BatteryListenerImpl::~BatteryListenerImpl (lines 178-190). Under the
lock, unregisterCallback runs only when mHealth is non-null, but
mHealth->unlinkToDeath(this) is called unconditionally (a null
dereference when the handle is absent); then mDone is set and
mThread->join() runs (a null dereference when the thread was never
created). -/
def BatteryListenerImpl.destructor (st : BatteryListenerImpl) : TeardownOutcome :=
  let st1 := match st.mHealth with
    | some _ => { st with registeredCb := false }
    | none => st
  match st1.mHealth with
  | none => TeardownOutcome.nullDeref "mHealth"
  | some _ =>
    let st2 := { st1 with linkedToDeath := false, mDone := true }
    if st2.mThread then
      TeardownOutcome.ok { st2 with mThread := false }
    else
      TeardownOutcome.nullDeref "mThread"

/-- BatteryListenerImpl::serviceDied (lines 192-208). who is the promoted
endpoint of the death notification (none when it cannot be promoted). If
no handle is held or the endpoint differs from the held handle, the
notification is ignored and the state is returned unchanged; otherwise
the worker is stopped and joined, the handle cleared, and init rerun. -/
def BatteryListenerImpl.serviceDied (st : BatteryListenerImpl)
    (who : Option Nat) (env : Nat → Option Nat)
    (chargeRead : Option BatteryStatus) : BatteryListenerImpl :=
  match st.mHealth with
  | none => st
  | some h =>
    if who = some h then
      let st1 : BatteryListenerImpl :=
        { st with mDone := true, mHealth := none, mThread := false }
      (BatteryListenerImpl.init st1 env chargeRead).st
    else st

/-- Outcome of batteryPropertiesListenerInit: the returned status_t, the
constructed listener, and the immediate callback invocations made by the
facade itself (before any push update is processed). -/
structure FacadeInitOutcome where
  ret : StatusT
  listener : BatteryListenerImpl
  immediateCbs : List Bool
deriving DecidableEq, Repr

/-- batteryPropertiesListenerInit (lines 239-248): constructs a fresh
BatteryListenerImpl (the constructor calls init and discards its return
value), reads isCharging, invokes the user callback once with true when
charging, and returns NO_ERROR unconditionally. -/
def batteryPropertiesListenerInit (env : Nat → Option Nat)
    (chargeRead : Option BatteryStatus) : FacadeInitOutcome :=
  let r := BatteryListenerImpl.init emptyListener env chargeRead
  let isC := r.st.isCharging
  ⟨StatusT.NO_ERROR, r.st, if isC then [isC] else []⟩

/-- Process-wide facade state: the sIsBatteryListened flag (line 55) and
the batteryListener singleton sp (line 233). -/
structure FacadeState where
  sIsBatteryListened : Bool
  batteryListener : Option BatteryListenerImpl
deriving DecidableEq, Repr

/-- batteryPropertiesListenerDeinit (lines 250-253): clears the singleton
sp and returns OK (= NO_ERROR). -/
def batteryPropertiesListenerDeinit (fs : FacadeState) : StatusT × FacadeState :=
  (StatusT.NO_ERROR, { fs with batteryListener := none })

/-- loc_extn_battery_properties_listener_init (lines 257-265): when the
process-wide flag is clear, runs batteryPropertiesListenerInit and sets
the flag; otherwise does nothing. Returns the new facade state and the
immediate callback invocations. -/
def loc_extn_battery_properties_listener_init (fs : FacadeState)
    (env : Nat → Option Nat) (chargeRead : Option BatteryStatus) :
    FacadeState × List Bool :=
  if fs.sIsBatteryListened = false then
    let r := batteryPropertiesListenerInit env chargeRead
    (⟨true, some r.listener⟩, r.immediateCbs)
  else (fs, [])

/-- loc_extn_battery_properties_listener_deinit (lines 267-269): calls
batteryPropertiesListenerDeinit. The source never writes
sIsBatteryListened here, so the flag keeps its value. -/
def loc_extn_battery_properties_listener_deinit (fs : FacadeState) : FacadeState :=
  (batteryPropertiesListenerDeinit fs).2

/-- A push update delivered to the store: arrival time in milliseconds and
the raw status carried. -/
structure Push where
  t : Nat
  s : BatteryStatus
deriving DecidableEq, Repr

/-- The 3 second NOT_CHARGING grace window (line 145) in milliseconds. -/
def graceWindowMs : Nat := 3000

/-- The worker thread loop (lines 123-159), sequentialized per the source's
own synchronous-delivery assumption (comment at lines 210-214). cur is
local_status; pushes equal to the slot value neither write nor notify and
are skipped. In normal mode a change to NOT_CHARGING enters the grace
window (first argument some deadline) without emitting; any other change
invokes the callback with statusToBool of the new status at the push time.
In grace mode a differing push before the deadline ends the wait and is
emitted; otherwise the timed wait expires at the deadline and the callback
fires with statusToBool of the held status, after which the loop resumes
in normal mode. -/
def workerAux : Option Nat → BatteryStatus → List Push → List (Nat × Bool)
  | none, _, [] => []
  | some d, cur, [] => [(d, statusToBool cur)]
  | none, cur, p :: rest =>
    if p.s = cur then workerAux none cur rest
    else if p.s = BatteryStatus.NOT_CHARGING then
      workerAux (some (p.t + graceWindowMs)) BatteryStatus.NOT_CHARGING rest
    else (p.t, statusToBool p.s) :: workerAux none p.s rest
  | some d, cur, p :: rest =>
    if p.t < d then
      if p.s = cur then workerAux (some d) cur rest
      else (p.t, statusToBool p.s) :: workerAux none p.s rest
    else
      (d, statusToBool cur) ::
        (if p.s = cur then workerAux none cur rest
         else if p.s = BatteryStatus.NOT_CHARGING then
           workerAux (some (p.t + graceWindowMs)) BatteryStatus.NOT_CHARGING rest
         else (p.t, statusToBool p.s) :: workerAux none p.s rest)

/-- A complete worker run: the thread starts with local_status equal to the
current slot value init and processes the pushes; the result is the list
of (time, boolean) callback invocations. -/
def workerRun (init : BatteryStatus) (ps : List Push) : List (Nat × Bool) :=
  workerAux none init ps

/-- The listener state at time T during a run: every push at or before T
has gone through healthInfoChanged into the slot. -/
def stateAt (init : BatteryStatus) (ps : List Push) (T : Nat) : BatteryListenerImpl :=
  (ps.filter (fun p => p.t ≤ T)).foldl
    (fun st p => st.healthInfoChanged p.s) { emptyListener with mStatus := init }

/-- The boolean of the most recent worker emission at or before time T,
none when nothing has been emitted yet. -/
def lastEmittedUpTo (init : BatteryStatus) (ps : List Push) (T : Nat) : Option Bool :=
  (((workerRun init ps).filter (fun e => e.1 ≤ T)).getLast?).map Prod.snd

/-- Decides whether no two consecutive list entries are equal. -/
def consecDistinct : List Bool → Bool
  | a :: b :: l => (a ≠ b) && consecDistinct (b :: l)
  | _ => true

lemma workerAux_length (ps : List Push) : ∀ (g : Option Nat) (cur : BatteryStatus),
    (workerAux g cur ps).length ≤ ps.length + (g.elim 0 fun _ => 1) := by
  induction ps with
  | nil =>
    intro g cur
    cases g <;> simp [workerAux]
  | cons p rest ih =>
    intro g cur
    cases g with
    | none =>
      simp only [workerAux]
      split_ifs with h1 h2
      · have := ih none cur
        simp only [Option.elim, List.length_cons] at this ⊢
        omega
      · have := ih (some (p.t + graceWindowMs)) BatteryStatus.NOT_CHARGING
        simp only [Option.elim, List.length_cons] at this ⊢
        omega
      · have := ih none p.s
        simp only [Option.elim, List.length_cons] at this ⊢
        omega
    | some d =>
      simp only [workerAux]
      split_ifs with h1 h2 h3 h4
      · have := ih (some d) cur
        simp only [Option.elim, List.length_cons] at this ⊢
        omega
      · have := ih none p.s
        simp only [Option.elim, List.length_cons] at this ⊢
        omega
      · have := ih none cur
        simp only [Option.elim, List.length_cons] at this ⊢
        omega
      · have := ih (some (p.t + graceWindowMs)) BatteryStatus.NOT_CHARGING
        simp only [Option.elim, List.length_cons] at this ⊢
        omega
      · have := ih none p.s
        simp only [Option.elim, List.length_cons] at this ⊢
        omega

lemma workerAux_grace_timeout (d : Nat) (ps : List Push)
    (h : ∀ p ∈ ps, p.t < d → p.s = BatteryStatus.NOT_CHARGING) :
    workerAux (some d) BatteryStatus.NOT_CHARGING ps
      = (d, false) ::
        workerAux none BatteryStatus.NOT_CHARGING
          (ps.dropWhile fun p => decide (p.t < d)) := by
  induction ps with
  | nil => simp [workerAux, statusToBool]
  | cons p rest ih =>
    by_cases hpt : p.t < d
    · have hps : p.s = BatteryStatus.NOT_CHARGING := h p (List.mem_cons_self p rest) hpt
      have ih2 := ih (fun q hq hqt => h q (List.mem_cons_of_mem p hq) hqt)
      simp only [workerAux, hpt, if_pos, hps, List.dropWhile]
      simp [hpt, ih2]
    · simp only [workerAux, hpt, if_neg, List.dropWhile]
      simp [hpt, statusToBool]

lemma acquireAux_calls_le (env : Nat → Option Nat) :
    ∀ (r tries : Nat), (acquireAux env tries r).calls ≤ r + 1 := by
  intro r
  induction r with
  | zero =>
    intro tries
    cases henv : env tries <;> simp [acquireAux, henv]
  | succ n ih =>
    intro tries
    cases henv : env tries with
    | none =>
      have := ih (tries + 1)
      simp only [acquireAux, henv]
      omega
    | some h => simp [acquireAux, henv]

lemma acquireAux_all_none (env : Nat → Option Nat) :
    ∀ (r tries : Nat), (∀ i, tries ≤ i → i ≤ tries + r → env i = none) →
    acquireAux env tries r = ⟨none, tries + r + 1, r + 1, r + 1⟩ := by
  intro r
  induction r with
  | zero =>
    intro tries h
    have h0 : env tries = none := h tries (Nat.le_refl _) (by omega)
    simp [acquireAux, h0]
  | succ n ih =>
    intro tries h
    have h0 : env tries = none := h tries (Nat.le_refl _) (by omega)
    have ih2 := ih (tries + 1) (fun i h1 h2 => h i (by omega) (by omega))
    simp only [acquireAux, h0, ih2]
    congr 1
    omega

lemma acquireService_all_none (env : Nat → Option Nat)
    (h : ∀ i, i < GET_HEALTH_SVC_RETRY_CNT → env i = none) :
    acquireService env = ⟨none, 5, 5, 5⟩ := by
  have := acquireAux_all_none env 4 0 (fun i h1 h2 => h i (by simp [GET_HEALTH_SVC_RETRY_CNT]; omega))
  simpa [acquireService, GET_HEALTH_SVC_RETRY_CNT] using this

/-- Claim C1, counterexample: from initial status UNKNOWN, the push
sequence CHARGING then FULL makes the worker invoke the callback twice
with the same boolean true, so the worker does not restrict invocations
to boolean changes. -/
theorem worker_consecutive_equal_booleans :
    (workerRun BatteryStatus.UNKNOWN
      [⟨0, BatteryStatus.CHARGING⟩, ⟨1000, BatteryStatus.FULL⟩]).map Prod.snd
      = [true, true] ∧
    consecDistinct ((workerRun BatteryStatus.UNKNOWN
      [⟨0, BatteryStatus.CHARGING⟩, ⟨1000, BatteryStatus.FULL⟩]).map Prod.snd)
      = false := by
  decide

/-- Claim C1, amended: the worker performs no boolean-level deduplication
(consecutive invocations may carry the same boolean, as the counterexample
shows); what holds is that each delivered status update triggers at most
one callback invocation: a run never emits more callbacks than pushes. -/
theorem worker_at_most_one_callback_per_push
    (init : BatteryStatus) (ps : List Push) :
    (workerRun init ps).length ≤ ps.length := by
  have := workerAux_length ps none init
  simpa [workerRun] using this

/-- Claim C2, counterexample: after the run CHARGING at 0 ms then
NOT_CHARGING at 1000 ms, queried at 2000 ms (inside the grace window), the
most recent debounced emission is true but isCharging returns false,
because it reads the raw pre-debounce status slot. -/
theorem isCharging_disagrees_with_last_debounced :
    (stateAt BatteryStatus.UNKNOWN
      [⟨0, BatteryStatus.CHARGING⟩, ⟨1000, BatteryStatus.NOT_CHARGING⟩]
      2000).isCharging = false ∧
    lastEmittedUpTo BatteryStatus.UNKNOWN
      [⟨0, BatteryStatus.CHARGING⟩, ⟨1000, BatteryStatus.NOT_CHARGING⟩]
      2000 = some true := by
  decide

/-- Claim C2, amended: isCharging reads the raw pre-debounce status slot,
the very slot push updates write: immediately after healthInfoChanged
delivers status s, isCharging returns statusToBool s, regardless of what
the worker has emitted. -/
theorem isCharging_reads_raw_slot (st : BatteryListenerImpl) (s : BatteryStatus) :
    (st.healthInfoChanged s).isCharging = statusToBool s := by
  unfold BatteryListenerImpl.healthInfoChanged BatteryListenerImpl.isCharging
  split
  · next heq => rw [heq]
  · rfl

/-- Claim C3, counterexample: with the worker settled on CHARGING, the blip
NOT_CHARGING at 0 ms reverted by CHARGING at 1000 ms (inside the 3 second
grace window) produces one callback (value true at 1000 ms), not zero. -/
theorem blip_reversal_emits_one_callback :
    workerRun BatteryStatus.CHARGING
      [⟨0, BatteryStatus.NOT_CHARGING⟩, ⟨1000, BatteryStatus.CHARGING⟩]
      = [(1000, true)] ∧
    workerRun BatteryStatus.CHARGING
      [⟨0, BatteryStatus.NOT_CHARGING⟩, ⟨1000, BatteryStatus.CHARGING⟩]
      ≠ [] := by
  decide

/-- Claim C3, amended: in a CHARGING, NOT_CHARGING, CHARGING run whose
reversal arrives within the grace window, the NOT_CHARGING blip itself is
swallowed (no false callback), but the returning CHARGING value does
produce one callback with value true at its arrival time, because the
worker compares raw statuses, not booleans. -/
theorem blip_swallowed_returning_status_emitted
    (t1 t2 : Nat) (ps : List Push) (h : t2 < t1 + graceWindowMs) :
    workerRun BatteryStatus.CHARGING
      (⟨t1, BatteryStatus.NOT_CHARGING⟩ :: ⟨t2, BatteryStatus.CHARGING⟩ :: ps)
      = (t2, true) :: workerRun BatteryStatus.CHARGING ps := by
  simp [workerRun, workerAux, h, statusToBool]

/-- Witness for the amended claim C3 at t1 = 0, t2 = 1000, empty tail. -/
theorem blip_swallowed_returning_status_emitted_witness :
    workerRun BatteryStatus.CHARGING
      [⟨0, BatteryStatus.NOT_CHARGING⟩, ⟨1000, BatteryStatus.CHARGING⟩]
      = (1000, true) :: workerRun BatteryStatus.CHARGING [] :=
  blip_swallowed_returning_status_emitted 0 1000 [] (by decide)

/-- Claim C4: after a successful init, loc_extn deinit clears the listener
but leaves sIsBatteryListened set, so the subsequent loc_extn init call is
a no-op (state unchanged, no listener constructed, no callback): the code
never clears the process-wide flag, contradicting the spec's teardown
contract. -/
theorem deinit_leaves_flag_set_second_call_noop :
    (loc_extn_battery_properties_listener_deinit
      (loc_extn_battery_properties_listener_init ⟨false, none⟩
        (fun _ => some 0) (some BatteryStatus.CHARGING)).1).sIsBatteryListened
      = true ∧
    loc_extn_battery_properties_listener_init
      (loc_extn_battery_properties_listener_deinit
        (loc_extn_battery_properties_listener_init ⟨false, none⟩
          (fun _ => some 0) (some BatteryStatus.CHARGING)).1)
      (fun _ => some 0) (some BatteryStatus.CHARGING)
      = (loc_extn_battery_properties_listener_deinit
          (loc_extn_battery_properties_listener_init ⟨false, none⟩
            (fun _ => some 0) (some BatteryStatus.CHARGING)).1, []) := by
  decide

/-- Claim C5: teardown is not safe in every state: after an init in which
all five getService attempts returned no handle, the listener holds no
handle and never started a worker thread, yet the destructor dereferences
the null mHealth handle in the unconditional unlinkToDeath call. -/
theorem destructor_null_deref_after_failed_acquire :
    (BatteryListenerImpl.init emptyListener (fun _ => none)
      (some BatteryStatus.CHARGING)).st.mHealth = none ∧
    (BatteryListenerImpl.init emptyListener (fun _ => none)
      (some BatteryStatus.CHARGING)).st.mThread = false ∧
    BatteryListenerImpl.destructor
      (BatteryListenerImpl.init emptyListener (fun _ => none)
        (some BatteryStatus.CHARGING)).st
      = TeardownOutcome.nullDeref "mHealth" := by
  decide

/-- Claim C6: when the stored status becomes NOT_CHARGING (from any other
settled status) and no push changes it before the grace window elapses,
the worker makes exactly one callback invocation for the event, with value
false, exactly at the end of the window (never earlier), and then resumes
from the NOT_CHARGING state on the remaining pushes. -/
theorem not_charging_persisting_emits_once_false_at_deadline
    (cur : BatteryStatus) (t : Nat) (ps : List Push)
    (hcur : cur ≠ BatteryStatus.NOT_CHARGING)
    (hps : ∀ p ∈ ps, p.t < t + graceWindowMs → p.s = BatteryStatus.NOT_CHARGING) :
    workerRun cur (⟨t, BatteryStatus.NOT_CHARGING⟩ :: ps)
      = (t + graceWindowMs, false) ::
        workerAux none BatteryStatus.NOT_CHARGING
          (ps.dropWhile fun p => decide (p.t < t + graceWindowMs)) := by
  have hne : ¬ (BatteryStatus.NOT_CHARGING = cur) := fun hh => hcur hh.symm
  simp only [workerRun, workerAux, hne, if_neg, if_pos, if_true, if_false]
  simpa using workerAux_grace_timeout (t + graceWindowMs) ps hps

/-- Witness for claim C6: from CHARGING, a NOT_CHARGING push at 0 ms with
no further pushes produces exactly the callback false at 3000 ms. -/
theorem not_charging_persisting_witness :
    workerRun BatteryStatus.CHARGING [⟨0, BatteryStatus.NOT_CHARGING⟩]
      = [(3000, false)] := by
  have := not_charging_persisting_emits_once_false_at_deadline
    BatteryStatus.CHARGING 0 [] (by decide) (by simp)
  simpa [workerAux, graceWindowMs] using this

/-- Claim C7: when every getService attempt yields no handle, init makes
exactly GET_HEALTH_SVC_RETRY_CNT = 5 attempts (one 500 ms sleep after each
failure), returns NO_INIT, and neither registers callbacks, links to
death, nor starts the worker thread; and for every environment the
acquisition loop makes at most 5 getService calls, so no further retry
happens at this layer. -/
theorem acquire_bounded_retries_no_further_retry
    (env : Nat → Option Nat) (chargeRead : Option BatteryStatus)
    (h : ∀ i, i < GET_HEALTH_SVC_RETRY_CNT → env i = none) :
    ((BatteryListenerImpl.init emptyListener env chargeRead).ret = StatusT.NO_INIT ∧
     (BatteryListenerImpl.init emptyListener env chargeRead).st.registeredCb = false ∧
     (BatteryListenerImpl.init emptyListener env chargeRead).st.linkedToDeath = false ∧
     (BatteryListenerImpl.init emptyListener env chargeRead).st.mThread = false ∧
     (BatteryListenerImpl.init emptyListener env chargeRead).calls
       = GET_HEALTH_SVC_RETRY_CNT ∧
     (BatteryListenerImpl.init emptyListener env chargeRead).sleeps
       = GET_HEALTH_SVC_RETRY_CNT) ∧
    (∀ env2 : Nat → Option Nat,
      (acquireService env2).calls ≤ GET_HEALTH_SVC_RETRY_CNT) := by
  have hs := acquireService_all_none env h
  constructor
  · simp [BatteryListenerImpl.init, emptyListener, hs, GET_HEALTH_SVC_RETRY_CNT]
  · intro env2
    have := acquireAux_calls_le env2 (GET_HEALTH_SVC_RETRY_CNT - 1) 0
    simp only [acquireService, GET_HEALTH_SVC_RETRY_CNT] at this ⊢
    omega

/-- Witness for claim C7 in the always-failing environment. -/
theorem acquire_bounded_retries_witness :
    ((BatteryListenerImpl.init emptyListener (fun _ => none)
        (some BatteryStatus.CHARGING)).ret = StatusT.NO_INIT ∧
     (BatteryListenerImpl.init emptyListener (fun _ => none)
        (some BatteryStatus.CHARGING)).st.registeredCb = false ∧
     (BatteryListenerImpl.init emptyListener (fun _ => none)
        (some BatteryStatus.CHARGING)).st.linkedToDeath = false ∧
     (BatteryListenerImpl.init emptyListener (fun _ => none)
        (some BatteryStatus.CHARGING)).st.mThread = false ∧
     (BatteryListenerImpl.init emptyListener (fun _ => none)
        (some BatteryStatus.CHARGING)).calls = GET_HEALTH_SVC_RETRY_CNT ∧
     (BatteryListenerImpl.init emptyListener (fun _ => none)
        (some BatteryStatus.CHARGING)).sleeps = GET_HEALTH_SVC_RETRY_CNT) ∧
    (∀ env2 : Nat → Option Nat,
      (acquireService env2).calls ≤ GET_HEALTH_SVC_RETRY_CNT) :=
  acquire_bounded_retries_no_further_retry (fun _ => none)
    (some BatteryStatus.CHARGING) (fun _ _ => rfl)

/-- Claim C8: a death notification is ignored when no handle is held or
when the reported endpoint does not match the held handle: serviceDied
returns with the listener state completely unchanged, performing no
teardown and no reacquisition. -/
theorem serviceDied_mismatched_endpoint_ignored
    (st : BatteryListenerImpl) (who : Option Nat)
    (env : Nat → Option Nat) (chargeRead : Option BatteryStatus)
    (h : st.mHealth = none ∨ who ≠ st.mHealth) :
    st.serviceDied who env chargeRead = st := by
  unfold BatteryListenerImpl.serviceDied
  cases hm : st.mHealth with
  | none => rfl
  | some hh =>
    have hne : who ≠ some hh := by
      rcases h with h | h
      · rw [hm] at h; exact absurd h (by simp)
      · rw [hm] at h; exact h
    simp [hne]

/-- Witness for claim C8: a live listener holding handle 0 ignores a death
notification for endpoint 1. -/
theorem serviceDied_mismatched_endpoint_witness :
    BatteryListenerImpl.serviceDied
      ⟨some 0, BatteryStatus.CHARGING, false, true, true, true⟩
      (some 1) (fun _ => some 0) (some BatteryStatus.CHARGING)
      = ⟨some 0, BatteryStatus.CHARGING, false, true, true, true⟩ :=
  serviceDied_mismatched_endpoint_ignored
    ⟨some 0, BatteryStatus.CHARGING, false, true, true, true⟩
    (some 1) (fun _ => some 0) (some BatteryStatus.CHARGING)
    (Or.inr (by decide))

/-- Claim C9: when acquisition succeeds and the initial charge read yields
status s, the facade init delivers exactly one immediate callback with
value true when s maps to charging (CHARGING or FULL), and none
otherwise, before any push update is processed. -/
theorem facade_immediate_callback_iff_charging
    (env : Nat → Option Nat) (s : BatteryStatus) (h : Nat)
    (hA : (acquireService env).mHealth = some h) :
    (batteryPropertiesListenerInit env (some s)).immediateCbs
      = (if statusToBool s then [true] else []) := by
  simp only [batteryPropertiesListenerInit, BatteryListenerImpl.init, emptyListener]
  rw [hA]
  cases hb : statusToBool s <;>
    simp [BatteryListenerImpl.isCharging, hb]

/-- Witness for claim C9: in an environment whose first getService call
succeeds and whose initial read is CHARGING, exactly one immediate true
callback is delivered. -/
theorem facade_immediate_callback_witness :
    (batteryPropertiesListenerInit (fun _ => some 0)
      (some BatteryStatus.CHARGING)).immediateCbs
      = (if statusToBool BatteryStatus.CHARGING then [true] else []) :=
  facade_immediate_callback_iff_charging (fun _ => some 0)
    BatteryStatus.CHARGING 0 (by decide)

/-- Claim C10: batteryPropertiesListenerInit returns NO_ERROR for every
environment and charge read, even though the listener's own init reports
NO_INIT in the always-failing environment: the acquisition failure never
reaches the facade's return value. -/
theorem facade_returns_no_error_despite_acquire_failure
    (env : Nat → Option Nat) (chargeRead : Option BatteryStatus) :
    (batteryPropertiesListenerInit env chargeRead).ret = StatusT.NO_ERROR ∧
    (BatteryListenerImpl.init emptyListener (fun _ => none) chargeRead).ret
      = StatusT.NO_INIT := by
  constructor
  · rfl
  · rfl
